import Mathlib

/-!
# Pipeline generator of the depthai ROS driver

A shallow embedding of `depthai_ros_driver/src/pipeline_generator.cpp`
(`PipelineGenerator::createPipeline`, `createNN`, `createSpatialNN`,
`validatePipeline`) together with theorems about it.

The C++ code mutates three things: the logger of the ROS node, the
`dai::Pipeline` in which processing nodes are constructed and linked, and the
local vector `daiNodes` that is returned.  The embedding passes them around
explicitly as a `PipelineState` (log, constructed nodes, links) and a list of
nodes.  Exceptions become `Except`.
-/

namespace depthai_ros_driver
namespace pipeline_gen

/-! ## Data model -/

/-- Enumeration `PipelineType` switched over by `createPipeline`. -/
inductive PipelineType where
  | RGB
  | RGBD
  | RGBStereo
  | Stereo
  | Depth
  | CamArray
  | Rae
  deriving DecidableEq, Repr

/-- Enumeration `NNType` switched over by the inner switches of `createPipeline`. -/
inductive NNType where
  | None
  | RGB
  | Spatial
  deriving DecidableEq, Repr

/-- Severity of a message handed to the ROS logger (`RCLCPP_INFO`, `RCLCPP_WARN`,
`RCLCPP_ERROR`). -/
inductive LogLevel where
  | INFO
  | WARN
  | ERROR
  deriving DecidableEq, Repr

/-- One message handed to the ROS logger. -/
structure LogMsg where
  level : LogLevel
  text : String
  deriving DecidableEq, Repr

/-- Board socket `dai::CameraBoardSocket` of the depthai library, by its underlying
value: `CAM_A = 0`, `CAM_B = 1`, ...; `RGB`, `LEFT` and `RIGHT` are the library's
aliases of `CAM_A`, `CAM_B` and `CAM_C`. -/
structure CameraBoardSocket where
  id : Int
  deriving DecidableEq, Repr

namespace CameraBoardSocket
def RGB : CameraBoardSocket := ⟨0⟩
def LEFT : CameraBoardSocket := ⟨1⟩
def RIGHT : CameraBoardSocket := ⟨2⟩
def CAM_B : CameraBoardSocket := ⟨1⟩
def CAM_C : CameraBoardSocket := ⟨2⟩
def CAM_D : CameraBoardSocket := ⟨3⟩
def CAM_E : CameraBoardSocket := ⟨4⟩
end CameraBoardSocket

/-- Result of `device->getCameraSensorNames()`: the sensors of the device, socket
and sensor name, in the order in which the container is iterated. -/
abbrev SensorInventory := List (CameraBoardSocket × String)

/-- Arguments of the long constructor of `dai_nodes::Stereo` (used by the `Rae`
case): names and sockets of the left and right sensor. -/
structure StereoSockets where
  leftName : String
  rightName : String
  leftSocket : CameraBoardSocket
  rightSocket : CameraBoardSocket
  deriving DecidableEq, Repr

/-- Processing node (`dai_nodes::BaseNode` and its five subclasses used here), with
the constructor arguments that `createPipeline` passes.  `Stereo name none` is the
short constructor call `Stereo(name, node, pipeline, device)`. -/
inductive DaiNode where
  | SensorWrapper (name : String) (socket : CameraBoardSocket)
  | Stereo (name : String) (sockets : Option StereoSockets)
  | NNWrapper (name : String)
  | SpatialNNWrapper (name : String)
  | Imu (name : String)
  deriving DecidableEq, Repr

namespace DaiNode

/-- Name handed to the constructor of the node (first constructor argument). -/
def name : DaiNode → String
  | SensorWrapper n _ => n
  | Stereo n _ => n
  | NNWrapper n => n
  | SpatialNNWrapper n => n
  | Imu n => n

/-- Plain inference node `dai_nodes::NNWrapper`. -/
def isNN : DaiNode → Bool
  | NNWrapper _ => true
  | _ => false

/-- Spatial inference node `dai_nodes::SpatialNNWrapper`. -/
def isSpatialNN : DaiNode → Bool
  | SpatialNNWrapper _ => true
  | _ => false

/-- Sensor capture node `dai_nodes::SensorWrapper`. -/
def isSensor : DaiNode → Bool
  | SensorWrapper _ _ => true
  | _ => false

/-- Stereo-depth node `dai_nodes::Stereo`. -/
def isStereo : DaiNode → Bool
  | Stereo _ _ => true
  | _ => false

/-- Inertial node `dai_nodes::Imu`. -/
def isImu : DaiNode → Bool
  | Imu _ => true
  | _ => false

end DaiNode

/-- Second argument of `BaseNode::link`: `RGBLinkType::preview`, or `unspecified`
when the call leaves the argument out (`daiStereoNode.link(input)`). -/
inductive LinkType where
  | preview
  | unspecified
  deriving DecidableEq, Repr

/-- Input of the inference node a link ends in: `getInput()` of `NNWrapper`
(`single`), or `getInput(SpatialNNLinkType::input)` / `getInput(SpatialNNLinkType::inputDepth)`
of `SpatialNNWrapper`. -/
inductive NNInput where
  | single
  | input
  | inputDepth
  deriving DecidableEq, Repr

/-- One call `source.link(target->getInput(..), linkType)`. -/
structure Link where
  source : DaiNode
  linkType : LinkType
  target : DaiNode
  input : NNInput
  deriving DecidableEq, Repr

/-- What a call of `createPipeline` has done to its surroundings so far: the
messages logged, the nodes constructed (in construction order) and the links made. -/
structure PipelineState where
  log : List LogMsg
  created : List DaiNode
  links : List Link
  deriving DecidableEq, Repr

namespace PipelineState

/-- State at the entry of `createPipeline`. -/
def empty : PipelineState := ⟨[], [], []⟩

/-- Effect of `RCLCPP_INFO`, `RCLCPP_WARN` or `RCLCPP_ERROR`. -/
def addLog (st : PipelineState) (level : LogLevel) (text : String) : PipelineState :=
  { st with log := st.log ++ [⟨level, text⟩] }

/-- Effect of `std::make_unique<...>(name, node, pipeline, ...)`. -/
def construct (st : PipelineState) (n : DaiNode) : PipelineState :=
  { st with created := st.created ++ [n] }

/-- Effect of `source.link(...)`. -/
def addLink (st : PipelineState) (l : Link) : PipelineState :=
  { st with links := st.links ++ [l] }

end PipelineState

/-- Failures of `createPipeline`: the exception of `utils::getValFromMap` for a key
that is not in the table, and the `std::runtime_error` of the `default` case. -/
inductive PipelineError where
  | unknownConfigurationValue (key : String)
  | unknownPipelineType (configuration : String)
  deriving DecidableEq, Repr

/-! ## validatePipeline -/

/-- Function `PipelineGenerator::validatePipeline(node, type, sensorNum)`; `sensorNum` is a
C++ `int`. Returns the topology and the state with the message logged. -/
def validatePipeline (st : PipelineState) (type : PipelineType) (sensorNum : Int) :
    PipelineType × PipelineState :=
  if sensorNum = 1 then
    if type ≠ PipelineType.RGB then
      (PipelineType.RGB,
        st.addLog LogLevel.ERROR
          "Wrong pipeline chosen for camera as it has only one sensor. Switching to RGB.")
    else (type, st)
  else if sensorNum = 2 then
    if type ≠ PipelineType.Stereo ∧ type ≠ PipelineType.Depth then
      (PipelineType.Stereo,
        st.addLog LogLevel.ERROR
          "Wrong pipeline chosen for camera as it has only stereo pair. Switching to Stereo.")
    else (type, st)
  else if sensorNum > 3 then
    if type ≠ PipelineType.Rae ∧ type ≠ PipelineType.CamArray then
      (PipelineType.CamArray,
        st.addLog LogLevel.ERROR
          "For cameras with more than three sensors you can only use CamArray. Switching to CamArray.")
    else (type, st)
  else (type, st)

/-- Number of physical sensors a topology needs, as the specification counts them:
1 for `RGB`, 2 for `Stereo` and `Depth`, 3 for `RGBD` and `RGBStereo`, 5 for the
fixed rig `Rae`, and every sensor of the device (`n`) for `CamArray`. -/
def sensorsRequired (n : Int) : PipelineType → Int
  | PipelineType.RGB => 1
  | PipelineType.Stereo => 2
  | PipelineType.Depth => 2
  | PipelineType.RGBD => 3
  | PipelineType.RGBStereo => 3
  | PipelineType.Rae => 5
  | PipelineType.CamArray => n

/-! ## Name mapping -/

/-- Modelled from the spec: `utils::getUpperCaseStr` is not part of the sources at
hand; the input is upper-cased character by character before the lookup. -/
def getUpperCaseStr (s : String) : String :=
  String.mk (s.data.map Char.toUpper)

/-- Modelled from the spec: `utils::getValFromMap` is not part of the sources at
hand; it returns the value stored under the key and fails with the
unknown-configuration-value error when the key is not in the table. -/
def getValFromMap {α : Type} (name : String) (map : List (String × α)) :
    Except PipelineError α :=
  match map.lookup name with
  | some v => Except.ok v
  | none => Except.error (PipelineError.unknownConfigurationValue name)

/-- Modelled from the spec: the constant `alphabet` is declared in the header, which
is not part of the sources at hand; it holds the letters a to z. -/
def alphabet : String := "abcdefghijklmnopqrstuvwxyz"

/-- Conversion of `getCameraSensorNames().size()` (a `size_t`) to the `int`
parameter `sensorNum` of `validatePipeline`: reduction modulo `2^32` into the
signed range. -/
def sizeToInt (n : Nat) : Int :=
  if n % 2 ^ 32 < 2 ^ 31 then ((n % 2 ^ 32 : Nat) : Int) else ((n % 2 ^ 32 : Nat) : Int) - 2 ^ 32

/-! ## Link wiring -/

/-- Function `PipelineGenerator::createNN(node, pipeline, daiNode)`: constructs the inference
node "nn" and links the preview output of `daiNode` to its input. -/
def createNN (st : PipelineState) (daiNode : DaiNode) : DaiNode × PipelineState :=
  let nn := DaiNode.NNWrapper "nn"
  let st := st.construct nn
  let st := st.addLink ⟨daiNode, LinkType.preview, nn, NNInput.single⟩
  (nn, st)

/-- Function `PipelineGenerator::createSpatialNN(node, pipeline, daiNode, daiStereoNode)`:
constructs the spatial inference node "nn", links the preview output of `daiNode` to
its `input` and `daiStereoNode` to its `inputDepth`. -/
def createSpatialNN (st : PipelineState) (daiNode daiStereoNode : DaiNode) :
    DaiNode × PipelineState :=
  let nn := DaiNode.SpatialNNWrapper "nn"
  let st := st.construct nn
  let st := st.addLink ⟨daiNode, LinkType.preview, nn, NNInput.input⟩
  let st := st.addLink ⟨daiStereoNode, LinkType.unspecified, nn, NNInput.inputDepth⟩
  (nn, st)

/-! ## createPipeline -/

/-- Variables live across the iterations of the `for` loop of the `CamArray` case:
the counters `i` and `j`, the pipeline state and the vector `daiNodes`.  The C++
counters are `int`; they are natural numbers here, which is the same as long as the
inventory has fewer than `2^31` entries. -/
structure CamArrayLoop where
  i : Nat
  j : Nat
  st : PipelineState
  daiNodes : List DaiNode
  deriving DecidableEq, Repr

/-- Letter `alphabet[i % alphabet.size()]`. -/
def alphabetAt (i : Nat) : Char :=
  alphabet.data.get ⟨i % alphabet.length, Nat.mod_lt i (by decide)⟩

/-- Body of the `for` loop of the `CamArray` case, run for one entry `sensor` of the
inventory. -/
def camArrayBody (s : CamArrayLoop) (sensor : CameraBoardSocket × String) : CamArrayLoop :=
  let j := if s.i % alphabet.length = 0 then s.j + 1 else s.j
  let nodeName := String.mk (List.replicate j (alphabetAt s.i))
  let daiNode := DaiNode.SensorWrapper nodeName sensor.1
  { i := s.i + 1, j := j, st := s.st.construct daiNode, daiNodes := s.daiNodes ++ [daiNode] }

/-- The `for` loop of the `CamArray` case over the whole inventory, started with
`i = 0` and `j = 0`. -/
def camArrayLoop (st : PipelineState) (daiNodes : List DaiNode) (sensors : SensorInventory) :
    CamArrayLoop :=
  sensors.foldl camArrayBody ⟨0, 0, st, daiNodes⟩

/-- The statement `switch(pType) { ... }` of `createPipeline`, entered with an empty
vector `daiNodes`.  Gives the vector and the state after the switch, or the
exception of the `default` case.  In the inner switches the case `Spatial` of `RGB`
and `RGBStereo` logs a warning and falls through to `default: break`. -/
def createPipelineSwitch (st : PipelineState) (pType : PipelineType) (nType : NNType)
    (sensors : SensorInventory) (pipelineType : String) :
    Except PipelineError (List DaiNode) × PipelineState :=
  let daiNodes : List DaiNode := []
  if pType = PipelineType.RGB then
    let rgb := DaiNode.SensorWrapper "rgb" CameraBoardSocket.RGB
    let st := st.construct rgb
    let (daiNodes, st) :=
      match nType with
      | NNType.None => (daiNodes, st)
      | NNType.RGB =>
        let (nn, st) := createNN st rgb
        (daiNodes ++ [nn], st)
      | NNType.Spatial =>
        (daiNodes, st.addLog LogLevel.WARN "Spatial NN selected, but configuration is RGB.")
    (Except.ok (daiNodes ++ [rgb]), st)
  else if pType = PipelineType.RGBD then
    let rgb := DaiNode.SensorWrapper "rgb" CameraBoardSocket.RGB
    let st := st.construct rgb
    let stereo := DaiNode.Stereo "stereo" none
    let st := st.construct stereo
    let (daiNodes, st) :=
      match nType with
      | NNType.None => (daiNodes, st)
      | NNType.RGB =>
        let (nn, st) := createNN st rgb
        (daiNodes ++ [nn], st)
      | NNType.Spatial =>
        let (nn, st) := createSpatialNN st rgb stereo
        (daiNodes ++ [nn], st)
    (Except.ok (daiNodes ++ [rgb] ++ [stereo]), st)
  else if pType = PipelineType.RGBStereo then
    let rgb := DaiNode.SensorWrapper "rgb" CameraBoardSocket.RGB
    let st := st.construct rgb
    let left := DaiNode.SensorWrapper "left" CameraBoardSocket.LEFT
    let st := st.construct left
    let right := DaiNode.SensorWrapper "right" CameraBoardSocket.RIGHT
    let st := st.construct right
    let (daiNodes, st) :=
      match nType with
      | NNType.None => (daiNodes, st)
      | NNType.RGB =>
        let (nn, st) := createNN st rgb
        (daiNodes ++ [nn], st)
      | NNType.Spatial =>
        (daiNodes, st.addLog LogLevel.WARN "Spatial NN selected, but configuration is RGBStereo.")
    (Except.ok (daiNodes ++ [rgb] ++ [left] ++ [right]), st)
  else if pType = PipelineType.Stereo then
    let left := DaiNode.SensorWrapper "left" CameraBoardSocket.LEFT
    let st := st.construct left
    let right := DaiNode.SensorWrapper "right" CameraBoardSocket.RIGHT
    let st := st.construct right
    (Except.ok (daiNodes ++ [left] ++ [right]), st)
  else if pType = PipelineType.Depth then
    let stereo := DaiNode.Stereo "stereo" none
    let st := st.construct stereo
    (Except.ok (daiNodes ++ [stereo]), st)
  else if pType = PipelineType.CamArray then
    let loop := camArrayLoop st daiNodes sensors
    (Except.ok loop.daiNodes, loop.st)
  else if pType = PipelineType.Rae then
    let rgb := DaiNode.SensorWrapper "rgb" CameraBoardSocket.RGB
    let st := st.construct rgb
    let stereo_front := DaiNode.Stereo "stereo_front"
      (some ⟨"left_front", "right_front", CameraBoardSocket.CAM_B, CameraBoardSocket.CAM_C⟩)
    let st := st.construct stereo_front
    let stereo_back := DaiNode.Stereo "stereo_back"
      (some ⟨"left_back", "right_back", CameraBoardSocket.CAM_D, CameraBoardSocket.CAM_E⟩)
    let st := st.construct stereo_back
    (Except.ok (daiNodes ++ [rgb] ++ [stereo_front] ++ [stereo_back]), st)
  else
    (Except.error (PipelineError.unknownPipelineType pipelineType), st)

/-- Function `PipelineGenerator::createPipeline(node, device, pipeline, pipelineType, nnType,
enableImu)`.  The two lookup tables `pipelineTypeMap` and `nnTypeMap` are declared in
the header, which is not part of the sources at hand, and are parameters here;
`sensors` is what `device->getCameraSensorNames()` returns.  The result is the
returned vector `daiNodes` or the exception thrown, together with what the call has
logged, constructed and linked. -/
def createPipeline (pipelineTypeMap : List (String × PipelineType))
    (nnTypeMap : List (String × NNType)) (sensors : SensorInventory)
    (pipelineType nnType : String) (enableImu : Bool) :
    Except PipelineError (List DaiNode) × PipelineState :=
  let st := PipelineState.empty.addLog LogLevel.INFO ("Pipeline type: " ++ pipelineType)
  let pTypeUpCase := getUpperCaseStr pipelineType
  let nTypeUpCase := getUpperCaseStr nnType
  match getValFromMap pTypeUpCase pipelineTypeMap with
  | Except.error e => (Except.error e, st)
  | Except.ok pType =>
    let (pType, st) := validatePipeline st pType (sizeToInt sensors.length)
    match getValFromMap nTypeUpCase nnTypeMap with
    | Except.error e => (Except.error e, st)
    | Except.ok nType =>
      match createPipelineSwitch st pType nType sensors pipelineType with
      | (Except.error e, st) => (Except.error e, st)
      | (Except.ok daiNodes, st) =>
        let (daiNodes, st) :=
          if enableImu then
            let imu := DaiNode.Imu "imu"
            (daiNodes ++ [imu], st.construct imu)
          else (daiNodes, st)
        let st := st.addLog LogLevel.INFO "Finished setting up pipeline."
        (Except.ok daiNodes, st)

/-- Sample of the table `pipelineTypeMap`: the upper-case name of each of the seven
topologies. -/
def samplePipelineTypeMap : List (String × PipelineType) :=
  [("RGB", PipelineType.RGB), ("RGBD", PipelineType.RGBD), ("RGBSTEREO", PipelineType.RGBStereo),
   ("STEREO", PipelineType.Stereo), ("DEPTH", PipelineType.Depth),
   ("CAMARRAY", PipelineType.CamArray), ("RAE", PipelineType.Rae)]

/-- Sample of the table `nnTypeMap`: the upper-case name of each of the three
modes. -/
def sampleNNTypeMap : List (String × NNType) :=
  [("NONE", NNType.None), ("RGB", NNType.RGB), ("SPATIAL", NNType.Spatial)]

/-- An inventory of `k` sensors on the sockets `0, 1, ..., k - 1`. -/
def sampleSensors (k : Nat) : SensorInventory :=
  (List.range k).map (fun n => (⟨(n : Int)⟩, "sensor"))

/-! ## Naming schemes the `CamArray` names are compared with -/

/-- Closed form of the repeating-letter scheme: the letter at index `i mod 26` of the
alphabet, repeated `i div 26 + 1` times (`i` is the 0-based position). -/
def camArrayName (i : Nat) : String :=
  String.mk (List.replicate (i / 26 + 1) (alphabetAt i))

/-- Letters of the bijective base-26 numeral of `n` over the digits a..z (a is digit
1, z is digit 26), most significant first: the last digit of `n + 1` is the letter at
index `n mod 26`, the digits before it are the numeral of `n div 26`. -/
def bijectiveBase26Digits : Nat → List Char
  | 0 => []
  | n + 1 => bijectiveBase26Digits (n / 26) ++ [alphabetAt n]
decreasing_by omega

/-- Bijective base-26 numeral of `n` as a string: "a" for 1, "z" for 26, "aa" for 27,
"ab" for 28, ... -/
def bijectiveBase26 (n : Nat) : String :=
  String.mk (bijectiveBase26Digits n)

/-- Value of a digit of a bijective base-26 numeral: 1 for a, ..., 26 for z. -/
def digitValue (c : Char) : Nat :=
  alphabet.data.indexOf c + 1

/-- Number denoted by a bijective base-26 numeral, most significant digit first. -/
def numeralValue (ds : List Char) : Nat :=
  ds.foldl (fun acc c => 26 * acc + digitValue c) 0

/-! ## Auxiliary definitions for the statements -/

/-- State of `createPipeline` after its first statement, the log of the raw
topology string. -/
def entryState (pipelineType : String) : PipelineState :=
  PipelineState.empty.addLog LogLevel.INFO ("Pipeline type: " ++ pipelineType)

/-- Closed form of the nodes the loop of the `CamArray` case builds for an inventory whose first entry
has position `i`. -/
def camArrayNodes (i : Nat) (sensors : SensorInventory) : List DaiNode :=
  (sensors.enumFrom i).map (fun p => DaiNode.SensorWrapper (camArrayName p.1) p.2.1)

/-! ## Theorems -/

/-- C1: with one sensor, `validatePipeline` returns `RGB` for every requested
topology. -/
theorem validatePipeline_one (st : PipelineState) (t : PipelineType) :
    (validatePipeline st t 1).1 = PipelineType.RGB := by
  cases t <;> simp [validatePipeline]

/-- C2: with two sensors, `validatePipeline` returns the requested topology when it
is `Stereo` or `Depth`, and `Stereo` for every other request. -/
theorem validatePipeline_two (st : PipelineState) (t : PipelineType) :
    (validatePipeline st t 2).1 =
      if t = PipelineType.Stereo ∨ t = PipelineType.Depth then t else PipelineType.Stereo := by
  cases t <;> simp [validatePipeline]

/-- C3: with more than three sensors, `validatePipeline` returns the requested
topology when it is `CamArray` or `Rae`, and `CamArray` for every other request. -/
theorem validatePipeline_many (st : PipelineState) (t : PipelineType) (n : Int) (hn : n > 3) :
    (validatePipeline st t n).1 =
      if t = PipelineType.CamArray ∨ t = PipelineType.Rae then t else PipelineType.CamArray := by
  have h1 : ¬ n = 1 := by omega
  have h2 : ¬ n = 2 := by omega
  cases t <;> simp [validatePipeline, h1, h2, hn]

/-- Witness of C3: five sensors, `RGBD` requested, `CamArray` returned. -/
theorem validatePipeline_many_witness :
    (5 : Int) > 3 ∧
      (validatePipeline PipelineState.empty PipelineType.RGBD 5).1 = PipelineType.CamArray :=
  ⟨by decide, validatePipeline_many PipelineState.empty PipelineType.RGBD 5 (by decide)⟩

/-- C4, counterexample: with three sensors a request for the five-sensor rig `Rae`
is returned unchanged, so the validated topology needs more sensors than there are
(and the same holds with four sensors). -/
theorem validatePipeline_realizable_counterexample :
    (3 : Int) ≥ 1 ∧
      (validatePipeline PipelineState.empty PipelineType.Rae 3).1 = PipelineType.Rae ∧
      ¬ (sensorsRequired 3 (validatePipeline PipelineState.empty PipelineType.Rae 3).1 ≤ 3) ∧
      ¬ (sensorsRequired 4 (validatePipeline PipelineState.empty PipelineType.Rae 4).1 ≤ 4) := by
  decide

/-- C4, amended: for every sensor count `n ≥ 1` and every request `t`, the validated
topology needs at most `n` sensors exactly when the request is not `Rae` on a device
of three or four sensors. -/
theorem validatePipeline_realizable (st : PipelineState) (t : PipelineType) (n : Int)
    (hn : n ≥ 1) :
    sensorsRequired n (validatePipeline st t n).1 ≤ n ↔
      ¬ (t = PipelineType.Rae ∧ (n = 3 ∨ n = 4)) := by
  by_cases h1 : n = 1
  · subst h1; cases t <;> simp [validatePipeline, sensorsRequired]
  by_cases h2 : n = 2
  · subst h2; cases t <;> simp [validatePipeline, sensorsRequired]
  by_cases h3 : n > 3
  · cases t <;> simp [validatePipeline, sensorsRequired, h1, h2, h3]
    omega
  · have : n = 3 := by omega
    subst this
    cases t <;> simp [validatePipeline, sensorsRequired]

/-- Witness of C4 (amended): three sensors and `RGBD` requested. -/
theorem validatePipeline_realizable_witness :
    (3 : Int) ≥ 1 ∧
      (sensorsRequired 3 (validatePipeline PipelineState.empty PipelineType.RGBD 3).1 ≤ 3 ↔
        ¬ (PipelineType.RGBD = PipelineType.Rae ∧ ((3 : Int) = 3 ∨ (3 : Int) = 4))) :=
  ⟨by decide, validatePipeline_realizable PipelineState.empty PipelineType.RGBD 3 (by decide)⟩

/-! ### Unfolding `createPipeline` -/

theorem validatePipeline_fst (st st' : PipelineState) (t : PipelineType) (n : Int) :
    (validatePipeline st t n).1 = (validatePipeline st' t n).1 := by
  unfold validatePipeline
  split_ifs <;> rfl

theorem validatePipeline_created (st : PipelineState) (t : PipelineType) (n : Int) :
    (validatePipeline st t n).2.created = st.created ∧
      (validatePipeline st t n).2.links = st.links := by
  unfold validatePipeline
  split_ifs <;> simp [PipelineState.addLog]

theorem createPipeline_of_lookup (ptab : List (String × PipelineType))
    (ntab : List (String × NNType)) (sensors : SensorInventory) (pipelineType nnType : String)
    (enableImu : Bool) (t : PipelineType) (m : NNType)
    (hp : getValFromMap (getUpperCaseStr pipelineType) ptab = Except.ok t)
    (hm : getValFromMap (getUpperCaseStr nnType) ntab = Except.ok m) :
    createPipeline ptab ntab sensors pipelineType nnType enableImu =
      match createPipelineSwitch
          (validatePipeline (entryState pipelineType) t (sizeToInt sensors.length)).2
          (validatePipeline (entryState pipelineType) t (sizeToInt sensors.length)).1
          m sensors pipelineType with
      | (Except.error e, st) => (Except.error e, st)
      | (Except.ok daiNodes, st) =>
        (Except.ok (if enableImu then daiNodes ++ [DaiNode.Imu "imu"] else daiNodes),
          (if enableImu then st.construct (DaiNode.Imu "imu") else st).addLog LogLevel.INFO
            "Finished setting up pipeline.") := by
  unfold createPipeline
  simp only [hp, hm, entryState]
  split <;> cases enableImu <;> rfl

/-! ### Spatial mode without a depth source -/

/-- C5, counterexample: on a device with one sensor, topology "rgb" (validated:
`RGB`) and mode "spatial" give the warning and the single node "rgb": the returned
collection holds no inference node at all, and no link is made. -/
theorem createPipeline_spatial_rgb_counterexample :
    (validatePipeline PipelineState.empty PipelineType.RGB
        (sizeToInt (sampleSensors 1).length)).1 = PipelineType.RGB ∧
      createPipeline samplePipelineTypeMap sampleNNTypeMap (sampleSensors 1) "rgb" "spatial" false =
        (Except.ok [DaiNode.SensorWrapper "rgb" CameraBoardSocket.RGB],
          ⟨[⟨LogLevel.INFO, "Pipeline type: rgb"⟩,
            ⟨LogLevel.WARN, "Spatial NN selected, but configuration is RGB."⟩,
            ⟨LogLevel.INFO, "Finished setting up pipeline."⟩],
           [DaiNode.SensorWrapper "rgb" CameraBoardSocket.RGB], []⟩) ∧
      List.countP DaiNode.isNN [DaiNode.SensorWrapper "rgb" CameraBoardSocket.RGB] ≠ 1 :=
  ⟨by decide, by rfl, by decide⟩

/-- C5, amended: when the validated topology is `RGB` or `RGBStereo` and the mode is
`Spatial`, the build succeeds, logs a warning, makes no link, and returns the capture
nodes only ("rgb", or "rgb", "left", "right"), followed by the inertial node when the
flag is on: no inference node, plain or spatial, is in the collection. -/
theorem createPipeline_spatial_without_depth (ptab : List (String × PipelineType))
    (ntab : List (String × NNType)) (sensors : SensorInventory) (pipelineType nnType : String)
    (enableImu : Bool) (t : PipelineType)
    (hp : getValFromMap (getUpperCaseStr pipelineType) ptab = Except.ok t)
    (hm : getValFromMap (getUpperCaseStr nnType) ntab = Except.ok NNType.Spatial)
    (hv : (validatePipeline PipelineState.empty t (sizeToInt sensors.length)).1 = PipelineType.RGB ∨
      (validatePipeline PipelineState.empty t (sizeToInt sensors.length)).1 =
        PipelineType.RGBStereo) :
    ∃ nodes st,
      createPipeline ptab ntab sensors pipelineType nnType enableImu = (Except.ok nodes, st) ∧
      (∃ msg ∈ st.log, msg.level = LogLevel.WARN) ∧
      st.links = [] ∧
      (∀ n ∈ nodes, n.isNN = false ∧ n.isSpatialNN = false) ∧
      nodes =
        (if (validatePipeline PipelineState.empty t (sizeToInt sensors.length)).1 = PipelineType.RGB
          then [DaiNode.SensorWrapper "rgb" CameraBoardSocket.RGB]
          else [DaiNode.SensorWrapper "rgb" CameraBoardSocket.RGB,
                DaiNode.SensorWrapper "left" CameraBoardSocket.LEFT,
                DaiNode.SensorWrapper "right" CameraBoardSocket.RIGHT]) ++
        (if enableImu then [DaiNode.Imu "imu"] else []) := by
  rw [createPipeline_of_lookup ptab ntab sensors pipelineType nnType enableImu t NNType.Spatial hp hm]
  have hl := (validatePipeline_created (entryState pipelineType) t (sizeToInt sensors.length)).2
  rw [validatePipeline_fst (entryState pipelineType) PipelineState.empty]
  generalize (validatePipeline (entryState pipelineType) t (sizeToInt sensors.length)).2 = v at hl ⊢
  have hl0 : v.links = [] := by rw [hl]; rfl
  rcases hv with hv | hv <;> rw [hv] <;> cases enableImu <;>
    refine ⟨_, _, rfl, ?_, ?_, ?_, ?_⟩ <;>
    simp [PipelineState.addLog, PipelineState.construct, hl0, DaiNode.isNN, DaiNode.isSpatialNN] <;>
    exact ⟨_, Or.inr (Or.inl rfl), rfl⟩

/-- Witness of C5 (amended): three sensors, topology "RGBStereo", mode "Spatial",
inertial flag on. -/
theorem createPipeline_spatial_without_depth_witness :
    ∃ nodes st,
      createPipeline samplePipelineTypeMap sampleNNTypeMap (sampleSensors 3) "RGBStereo" "Spatial"
        true = (Except.ok nodes, st) ∧
      (∃ msg ∈ st.log, msg.level = LogLevel.WARN) ∧
      st.links = [] ∧
      (∀ n ∈ nodes, n.isNN = false ∧ n.isSpatialNN = false) ∧
      nodes =
        (if (validatePipeline PipelineState.empty PipelineType.RGBStereo
              (sizeToInt (sampleSensors 3).length)).1 = PipelineType.RGB
          then [DaiNode.SensorWrapper "rgb" CameraBoardSocket.RGB]
          else [DaiNode.SensorWrapper "rgb" CameraBoardSocket.RGB,
                DaiNode.SensorWrapper "left" CameraBoardSocket.LEFT,
                DaiNode.SensorWrapper "right" CameraBoardSocket.RIGHT]) ++
        (if true then [DaiNode.Imu "imu"] else []) :=
  createPipeline_spatial_without_depth samplePipelineTypeMap sampleNNTypeMap (sampleSensors 3)
    "RGBStereo" "Spatial" true PipelineType.RGBStereo (by rfl) (by rfl) (Or.inr (by decide))

/-! ### Spatial mode with a depth source -/

/-- C6: when the validated topology is `RGBD`, the mode is `Spatial` and the inertial
flag is off, the returned collection is exactly the three nodes spatial inference
"nn", color capture "rgb" and stereo-depth "stereo", and exactly two links are made:
from the preview output of "rgb" to the input `input` of "nn" and from "stereo" to
the input `inputDepth` of "nn". -/
theorem createPipeline_rgbd_spatial (ptab : List (String × PipelineType))
    (ntab : List (String × NNType)) (sensors : SensorInventory) (pipelineType nnType : String)
    (t : PipelineType)
    (hp : getValFromMap (getUpperCaseStr pipelineType) ptab = Except.ok t)
    (hm : getValFromMap (getUpperCaseStr nnType) ntab = Except.ok NNType.Spatial)
    (hv : (validatePipeline PipelineState.empty t (sizeToInt sensors.length)).1 =
      PipelineType.RGBD) :
    ∃ st,
      createPipeline ptab ntab sensors pipelineType nnType false =
        (Except.ok [DaiNode.SpatialNNWrapper "nn",
                    DaiNode.SensorWrapper "rgb" CameraBoardSocket.RGB,
                    DaiNode.Stereo "stereo" none], st) ∧
      st.links =
        [⟨DaiNode.SensorWrapper "rgb" CameraBoardSocket.RGB, LinkType.preview,
            DaiNode.SpatialNNWrapper "nn", NNInput.input⟩,
         ⟨DaiNode.Stereo "stereo" none, LinkType.unspecified,
            DaiNode.SpatialNNWrapper "nn", NNInput.inputDepth⟩] ∧
      st.created =
        [DaiNode.SensorWrapper "rgb" CameraBoardSocket.RGB, DaiNode.Stereo "stereo" none,
         DaiNode.SpatialNNWrapper "nn"] := by
  rw [createPipeline_of_lookup ptab ntab sensors pipelineType nnType false t NNType.Spatial hp hm]
  have hl := validatePipeline_created (entryState pipelineType) t (sizeToInt sensors.length)
  rw [validatePipeline_fst (entryState pipelineType) PipelineState.empty, hv]
  generalize (validatePipeline (entryState pipelineType) t (sizeToInt sensors.length)).2 = v at hl ⊢
  have hl0 : v.links = [] := by rw [hl.2]; rfl
  have hc0 : v.created = [] := by rw [hl.1]; rfl
  refine ⟨_, rfl, ?_, ?_⟩ <;>
    simp [createSpatialNN, PipelineState.addLog, PipelineState.construct,
      PipelineState.addLink, hl0, hc0]

/-- Witness of C6: three sensors, topology "rgbd", mode "spatial". -/
theorem createPipeline_rgbd_spatial_witness :
    ∃ st,
      createPipeline samplePipelineTypeMap sampleNNTypeMap (sampleSensors 3) "rgbd" "spatial"
          false =
        (Except.ok [DaiNode.SpatialNNWrapper "nn",
                    DaiNode.SensorWrapper "rgb" CameraBoardSocket.RGB,
                    DaiNode.Stereo "stereo" none], st) ∧
      st.links =
        [⟨DaiNode.SensorWrapper "rgb" CameraBoardSocket.RGB, LinkType.preview,
            DaiNode.SpatialNNWrapper "nn", NNInput.input⟩,
         ⟨DaiNode.Stereo "stereo" none, LinkType.unspecified,
            DaiNode.SpatialNNWrapper "nn", NNInput.inputDepth⟩] ∧
      st.created =
        [DaiNode.SensorWrapper "rgb" CameraBoardSocket.RGB, DaiNode.Stereo "stereo" none,
         DaiNode.SpatialNNWrapper "nn"] :=
  createPipeline_rgbd_spatial samplePipelineTypeMap sampleNNTypeMap (sampleSensors 3)
    "rgbd" "spatial" PipelineType.RGBD (by rfl) (by rfl) (by decide)

/-! ### Unknown configuration strings -/

/-- C7: if the upper-cased topology string is not a key of the topology table, or
the upper-cased mode string is not a key of the mode table, `createPipeline` fails
with the unknown-configuration-value error, and no node has been constructed and no
link made. -/
theorem createPipeline_unknown_value (ptab : List (String × PipelineType))
    (ntab : List (String × NNType)) (sensors : SensorInventory) (pipelineType nnType : String)
    (enableImu : Bool)
    (h : getUpperCaseStr pipelineType ∉ ptab.map Prod.fst ∨
      getUpperCaseStr nnType ∉ ntab.map Prod.fst) :
    ∃ key st,
      createPipeline ptab ntab sensors pipelineType nnType enableImu =
        (Except.error (PipelineError.unknownConfigurationValue key), st) ∧
      st.created = [] ∧ st.links = [] := by
  have key_none : ∀ {α : Type} (k : String) (tab : List (String × α)),
      k ∉ tab.map Prod.fst → getValFromMap k tab = Except.error (PipelineError.unknownConfigurationValue k) := by
    intro α k tab hk
    have : tab.lookup k = none := by
      rw [List.lookup_eq_none_iff]
      intro p hp
      have : k ≠ p.1 := fun e => hk (e ▸ List.mem_map_of_mem Prod.fst hp)
      simpa using this
    simp [getValFromMap, this]
  unfold createPipeline
  dsimp only
  by_cases hp : getUpperCaseStr pipelineType ∈ ptab.map Prod.fst
  · have hn := h.resolve_left (not_not.mpr hp)
    rw [key_none _ _ hn]
    cases hpt : getValFromMap (getUpperCaseStr pipelineType) ptab with
    | error e =>
      have : ptab.lookup (getUpperCaseStr pipelineType) = none := by
        unfold getValFromMap at hpt
        split at hpt
        · cases hpt
        · assumption
      rw [List.lookup_eq_none_iff] at this
      obtain ⟨p, hpm, hpe⟩ := List.mem_map.mp hp
      have := this p hpm
      simp [hpe] at this
    | ok t =>
      have hl := validatePipeline_created
        (PipelineState.empty.addLog LogLevel.INFO ("Pipeline type: " ++ pipelineType)) t
        (sizeToInt sensors.length)
      exact ⟨_, _, rfl, by rw [hl.1]; rfl, by rw [hl.2]; rfl⟩
  · rw [key_none _ _ hp]
    exact ⟨_, _, rfl, rfl, rfl⟩

/-- Witness of C7: the topology string "bogus". -/
theorem createPipeline_unknown_value_witness :
    ∃ key st,
      createPipeline samplePipelineTypeMap sampleNNTypeMap (sampleSensors 3) "bogus" "none" false =
        (Except.error (PipelineError.unknownConfigurationValue key), st) ∧
      st.created = [] ∧ st.links = [] :=
  createPipeline_unknown_value samplePipelineTypeMap sampleNNTypeMap (sampleSensors 3)
    "bogus" "none" false (Or.inl (by decide))

/-! ### The alphabet -/

theorem alphabet_get_lt : ∀ x y : Fin alphabet.data.length,
    (alphabet.data.get x < alphabet.data.get y) ↔ x < y := by decide

theorem alphabet_indexOf_get : ∀ x : Fin alphabet.data.length,
    alphabet.data.indexOf (alphabet.data.get x) = x.1 := by decide

theorem alphabetAt_lt_iff (a b : Nat) : alphabetAt a < alphabetAt b ↔ a % 26 < b % 26 := by
  unfold alphabetAt
  rw [alphabet_get_lt]
  exact Iff.rfl

theorem alphabetAt_eq_iff (a b : Nat) : alphabetAt a = alphabetAt b ↔ a % 26 = b % 26 := by
  constructor
  · intro h
    have h1 := (alphabetAt_lt_iff a b).not
    have h2 := (alphabetAt_lt_iff b a).not
    rw [h] at h1
    rw [h] at h2
    have := h1.mp (lt_irrefl _)
    have := h2.mp (lt_irrefl _)
    omega
  · intro h
    unfold alphabetAt
    congr 2

theorem digitValue_alphabetAt (n : Nat) : digitValue (alphabetAt n) = n % 26 + 1 := by
  unfold digitValue alphabetAt
  rw [alphabet_indexOf_get]
  rfl

/-! ### The bijective base-26 numeral -/

theorem bijectiveBase26Digits_zero : bijectiveBase26Digits 0 = [] := by
  rw [bijectiveBase26Digits]

theorem bijectiveBase26Digits_succ (n : Nat) :
    bijectiveBase26Digits (n + 1) = bijectiveBase26Digits (n / 26) ++ [alphabetAt n] := by
  rw [bijectiveBase26Digits]

/-- The numeral of `n` denotes `n`: `bijectiveBase26Digits` is the bijective base-26
numeral. -/
theorem numeralValue_bijectiveBase26Digits (n : Nat) :
    numeralValue (bijectiveBase26Digits n) = n := by
  induction n using Nat.strong_induction_on with
  | _ n ih =>
    cases n with
    | zero => rw [bijectiveBase26Digits_zero]; rfl
    | succ m =>
      have h := ih (m / 26) (by omega)
      unfold numeralValue at h ⊢
      rw [bijectiveBase26Digits_succ, List.foldl_append, h]
      simp only [List.foldl_cons, List.foldl_nil, digitValue_alphabetAt]
      omega

theorem bijectiveBase26Digits_length_le (n : Nat) : (bijectiveBase26Digits n).length ≤ n := by
  induction n using Nat.strong_induction_on with
  | _ n ih =>
    cases n with
    | zero => rw [bijectiveBase26Digits_zero]; simp
    | succ m =>
      have h := ih (m / 26) (by omega)
      rw [bijectiveBase26Digits_succ, List.length_append, List.length_singleton]
      omega

theorem bijectiveBase26Digits_length_lt (n : Nat) (hn : 2 ≤ n) :
    (bijectiveBase26Digits n).length < n := by
  obtain ⟨m, rfl⟩ : ∃ m, n = m + 1 := ⟨n - 1, by omega⟩
  have h := bijectiveBase26Digits_length_le (m / 26)
  rw [bijectiveBase26Digits_succ, List.length_append, List.length_singleton]
  omega

/-- The repeating-letter name of position `p` (numbered `p + 1` when counting from 1)
is the bijective base-26 numeral of `p + 1` exactly for the first 27 positions. -/
theorem camArrayName_eq_bijectiveBase26_iff (p : Nat) :
    camArrayName p = bijectiveBase26 (p + 1) ↔ p + 1 ≤ 27 := by
  unfold camArrayName bijectiveBase26
  rw [String.ext_iff]
  dsimp only
  rw [bijectiveBase26Digits_succ, List.replicate_succ', List.append_left_inj]
  constructor
  · intro h
    have hl := congrArg List.length h
    rw [List.length_replicate] at hl
    by_cases h2 : 2 ≤ p / 26
    · have := bijectiveBase26Digits_length_lt (p / 26) h2
      omega
    · by_cases h0 : p / 26 = 0
      · omega
      · have h1 : p / 26 = 1 := by omega
        rw [h1, bijectiveBase26Digits_succ, bijectiveBase26Digits_zero] at h
        simp only [List.replicate_one, Nat.zero_div, List.nil_append,
          List.cons.injEq, and_true] at h
        have := (alphabetAt_eq_iff p 0).mp h
        omega
  · intro h
    by_cases h0 : p / 26 = 0
    · rw [h0, bijectiveBase26Digits_zero]; rfl
    · have h1 : p / 26 = 1 := by omega
      have hp : p = 26 := by omega
      subst hp
      rw [h1, bijectiveBase26Digits_succ, bijectiveBase26Digits_zero]
      rfl

/-! ### The loop of the `CamArray` case -/

theorem camArrayBody_foldl (sensors : SensorInventory) (s : CamArrayLoop)
    (hj : s.j = (s.i + 25) / 26) :
    (sensors.foldl camArrayBody s).daiNodes = s.daiNodes ++ camArrayNodes s.i sensors ∧
      (sensors.foldl camArrayBody s).st.links = s.st.links := by
  induction sensors generalizing s with
  | nil => simp [camArrayNodes]
  | cons sensor rest ih =>
    have hlen : alphabet.length = 26 := by decide
    have hj' : (if s.i % alphabet.length = 0 then s.j + 1 else s.j) = s.i / 26 + 1 := by
      rw [hlen, hj]
      split_ifs <;> omega
    have step : camArrayBody s sensor =
        { i := s.i + 1, j := s.i / 26 + 1,
          st := s.st.construct (DaiNode.SensorWrapper (camArrayName s.i) sensor.1),
          daiNodes := s.daiNodes ++ [DaiNode.SensorWrapper (camArrayName s.i) sensor.1] } := by
      unfold camArrayBody camArrayName
      simp only [hj']
    rw [List.foldl_cons, step]
    have h := ih ⟨s.i + 1, s.i / 26 + 1,
          s.st.construct (DaiNode.SensorWrapper (camArrayName s.i) sensor.1),
          s.daiNodes ++ [DaiNode.SensorWrapper (camArrayName s.i) sensor.1]⟩
      (by show s.i / 26 + 1 = (s.i + 1 + 25) / 26; omega)
    rw [h.1, h.2]
    simp [camArrayNodes, PipelineState.construct]

theorem camArrayLoop_daiNodes (st : PipelineState) (daiNodes : List DaiNode)
    (sensors : SensorInventory) :
    (camArrayLoop st daiNodes sensors).daiNodes = daiNodes ++ camArrayNodes 0 sensors ∧
      (camArrayLoop st daiNodes sensors).st.links = st.links :=
  camArrayBody_foldl sensors ⟨0, 0, st, daiNodes⟩ (by show 0 = (0 + 25) / 26; decide)

theorem camArrayNodes_getElem? (i0 : Nat) (sensors : SensorInventory) (i : Nat) :
    (camArrayNodes i0 sensors)[i]? =
      sensors[i]?.map (fun sensor => DaiNode.SensorWrapper (camArrayName (i0 + i)) sensor.1) := by
  unfold camArrayNodes
  rw [List.getElem?_map, List.getElem?_enumFrom]
  cases sensors[i]? <;> rfl

theorem camArrayNodes_length (i0 : Nat) (sensors : SensorInventory) :
    (camArrayNodes i0 sensors).length = sensors.length := by
  simp [camArrayNodes]

theorem camArrayNodes_names (sensors : SensorInventory) :
    (camArrayNodes 0 sensors).map DaiNode.name = (List.range sensors.length).map camArrayName := by
  apply List.ext_getElem?
  intro i
  rw [List.getElem?_map, camArrayNodes_getElem?, List.getElem?_map]
  by_cases h : i < sensors.length
  · rw [List.getElem?_range h, List.getElem?_eq_getElem h]
    simp [DaiNode.name]
  · rw [List.getElem?_eq_none (by simpa using h), List.getElem?_eq_none (by simpa using h)]
    rfl

/-- Result of `createPipeline` when the validated topology is `CamArray`: one capture
node per entry of the inventory, then the inertial node when the flag is on; no link
is made. -/
theorem createPipeline_camArray (ptab : List (String × PipelineType))
    (ntab : List (String × NNType)) (sensors : SensorInventory) (pipelineType nnType : String)
    (enableImu : Bool) (t : PipelineType) (m : NNType)
    (hp : getValFromMap (getUpperCaseStr pipelineType) ptab = Except.ok t)
    (hm : getValFromMap (getUpperCaseStr nnType) ntab = Except.ok m)
    (hv : (validatePipeline PipelineState.empty t (sizeToInt sensors.length)).1 =
      PipelineType.CamArray) :
    ∃ st,
      createPipeline ptab ntab sensors pipelineType nnType enableImu =
        (Except.ok (camArrayNodes 0 sensors ++ if enableImu then [DaiNode.Imu "imu"] else []),
          st) ∧
      st.links = [] := by
  rw [createPipeline_of_lookup ptab ntab sensors pipelineType nnType enableImu t m hp hm]
  have hl := validatePipeline_created (entryState pipelineType) t (sizeToInt sensors.length)
  rw [validatePipeline_fst (entryState pipelineType) PipelineState.empty, hv]
  generalize (validatePipeline (entryState pipelineType) t (sizeToInt sensors.length)).2 = v at hl ⊢
  have hl0 : v.links = [] := by rw [hl.2]; rfl
  have hloop := camArrayLoop_daiNodes v [] sensors
  have hsw : createPipelineSwitch v PipelineType.CamArray m sensors pipelineType =
      (Except.ok (camArrayLoop v [] sensors).daiNodes, (camArrayLoop v [] sensors).st) := by
    simp [createPipelineSwitch]
  rw [hsw]
  dsimp only
  rw [hloop.1, List.nil_append]
  cases enableImu
  · simp only [Bool.false_eq_true, if_false, List.append_nil]
    exact ⟨_, rfl, by simp [PipelineState.addLog, hloop.2, hl0]⟩
  · simp only [if_true]
    exact ⟨_, rfl, by simp [PipelineState.addLog, PipelineState.construct, hloop.2, hl0]⟩

/-! ### Names of the repeating-letter scheme -/

theorem camArrayName_injective : Function.Injective camArrayName := by
  intro a b h
  unfold camArrayName at h
  rw [String.ext_iff] at h
  dsimp only at h
  have hl := congrArg List.length h
  rw [List.length_replicate, List.length_replicate] at hl
  rw [List.replicate_succ, List.replicate_succ] at h
  have hc := (alphabetAt_eq_iff a b).mp (List.cons.inj h).1
  omega

theorem camArrayName_ne_imu (i : Nat) : camArrayName i ≠ "imu" := by
  intro h
  unfold camArrayName at h
  rw [String.ext_iff] at h
  have h' : ['i', 'm', 'u'] = List.replicate (i / 26 + 1) (alphabetAt i) := h.symm
  rw [List.eq_replicate_iff] at h'
  have h1 := h'.2 'i' (by simp)
  have h2 := h'.2 'm' (by simp)
  exact absurd (h1.trans h2.symm) (by decide)

theorem cons_lt_cons_iff (a b : Char) (as bs : List Char) :
    a :: as < b :: bs ↔ a < b ∨ (a = b ∧ as < bs) := by
  constructor
  · intro h
    cases h with
    | cons h => exact Or.inr ⟨rfl, h⟩
    | rel h => exact Or.inl h
  · rintro (h | ⟨rfl, h⟩)
    · exact List.Lex.rel h
    · exact List.Lex.cons h

theorem replicate_lt_replicate_iff (c : Char) (m n : Nat) :
    List.replicate m c < List.replicate n c ↔ m < n := by
  induction m generalizing n with
  | zero =>
    cases n with
    | zero =>
      simp only [List.replicate_zero, Nat.lt_irrefl, iff_false]
      intro h
      cases h
    | succ n =>
      simp only [List.replicate_zero, List.replicate_succ, Nat.zero_lt_succ, iff_true]
      exact List.nil_lt_cons _ _
  | succ m ih =>
    cases n with
    | zero =>
      simp only [List.replicate_zero, List.replicate_succ, Nat.not_lt_zero, iff_false]
      intro h
      cases h
    | succ n =>
      rw [List.replicate_succ, List.replicate_succ, cons_lt_cons_iff, ih]
      have hirr : ¬ c < c := lt_irrefl c
      constructor
      · rintro (h | ⟨_, h⟩)
        · exact absurd h hirr
        · omega
      · intro h
        exact Or.inr ⟨rfl, by omega⟩

/-- Lexicographic comparison of two names of the repeating-letter scheme, the first
from the earlier position: it follows the letters, not the positions. -/
theorem camArrayName_lt_iff (i j : Nat) (hij : i < j) :
    camArrayName i < camArrayName j ↔ i % 26 ≤ j % 26 := by
  rw [String.lt_iff_toList_lt]
  unfold camArrayName
  show List.replicate (i / 26 + 1) (alphabetAt i) < List.replicate (j / 26 + 1) (alphabetAt j) ↔ _
  rw [List.replicate_succ, List.replicate_succ, cons_lt_cons_iff, alphabetAt_lt_iff,
    alphabetAt_eq_iff]
  constructor
  · rintro (h | ⟨h1, _⟩) <;> omega
  · intro h
    by_cases he : i % 26 = j % 26
    · right
      refine ⟨he, ?_⟩
      rw [(alphabetAt_eq_iff i j).mpr he, replicate_lt_replicate_iff]
      omega
    · left
      omega

/-! ### Names of the `CamArray` nodes -/

/-- C8, counterexample: with 28 sensors the 28th node is named "bb", while the
bijective base-26 numeral of 28 is "ab". -/
theorem camArray_bijective_counterexample :
    ∃ nodes st node,
      createPipeline samplePipelineTypeMap sampleNNTypeMap (sampleSensors 28) "camarray" "none"
        false = (Except.ok nodes, st) ∧
      nodes[28 - 1]? = some node ∧ node.name = "bb" ∧ bijectiveBase26 28 = "ab" ∧
      node.name ≠ bijectiveBase26 28 := by
  have hb : bijectiveBase26 28 = "ab" := by
    unfold bijectiveBase26
    rw [bijectiveBase26Digits_succ 27, bijectiveBase26Digits_succ 0, bijectiveBase26Digits_zero]
    rfl
  refine ⟨_, _, _, rfl, rfl, rfl, hb, ?_⟩
  rw [hb]
  decide

/-- C8, amended: for every inventory of `k` sensors and every `i` with `1 ≤ i ≤ k`,
the `i`-th node built for the validated topology `CamArray` exists, and its name is
the bijective base-26 numeral of `i` exactly when `i ≤ 27` (the names a, ..., z, aa). -/
theorem camArray_name_bijective_iff (ptab : List (String × PipelineType))
    (ntab : List (String × NNType)) (sensors : SensorInventory) (pipelineType nnType : String)
    (enableImu : Bool) (t : PipelineType) (m : NNType)
    (hp : getValFromMap (getUpperCaseStr pipelineType) ptab = Except.ok t)
    (hm : getValFromMap (getUpperCaseStr nnType) ntab = Except.ok m)
    (hv : (validatePipeline PipelineState.empty t (sizeToInt sensors.length)).1 =
      PipelineType.CamArray)
    (i : Nat) (h1 : 1 ≤ i) (hk : i ≤ sensors.length) :
    ∃ nodes st node,
      createPipeline ptab ntab sensors pipelineType nnType enableImu = (Except.ok nodes, st) ∧
      nodes[i - 1]? = some node ∧
      (node.name = bijectiveBase26 i ↔ i ≤ 27) := by
  obtain ⟨st, hst, _⟩ :=
    createPipeline_camArray ptab ntab sensors pipelineType nnType enableImu t m hp hm hv
  have hlt : i - 1 < sensors.length := by omega
  refine ⟨_, st, DaiNode.SensorWrapper (camArrayName (i - 1)) (sensors[i - 1]).1, hst, ?_, ?_⟩
  · rw [List.getElem?_append_left (by rw [camArrayNodes_length]; exact hlt),
      camArrayNodes_getElem?, List.getElem?_eq_getElem hlt]
    simp
  · have := camArrayName_eq_bijectiveBase26_iff (i - 1)
    rw [show i - 1 + 1 = i from by omega] at this
    exact this

/-- Witness of C8 (amended): 30 sensors, the 27th node. -/
theorem camArray_name_bijective_iff_witness :
    ∃ nodes st node,
      createPipeline samplePipelineTypeMap sampleNNTypeMap (sampleSensors 30) "CamArray" "none"
        true = (Except.ok nodes, st) ∧
      nodes[27 - 1]? = some node ∧
      (node.name = bijectiveBase26 27 ↔ 27 ≤ 27) :=
  camArray_name_bijective_iff samplePipelineTypeMap sampleNNTypeMap (sampleSensors 30)
    "CamArray" "none" true PipelineType.CamArray NNType.None (by rfl) (by rfl) (by decide)
    27 (by decide) (by decide)

/-- C9: for every inventory of at most 10000 sensors, the names of the nodes
returned for the validated topology `CamArray` are pairwise distinct (the inertial
node "imu" included when the flag is on). -/
theorem camArray_names_nodup (ptab : List (String × PipelineType))
    (ntab : List (String × NNType)) (sensors : SensorInventory) (pipelineType nnType : String)
    (enableImu : Bool) (t : PipelineType) (m : NNType)
    (hp : getValFromMap (getUpperCaseStr pipelineType) ptab = Except.ok t)
    (hm : getValFromMap (getUpperCaseStr nnType) ntab = Except.ok m)
    (hv : (validatePipeline PipelineState.empty t (sizeToInt sensors.length)).1 =
      PipelineType.CamArray)
    (_hk : sensors.length ≤ 10000) :
    ∃ nodes st,
      createPipeline ptab ntab sensors pipelineType nnType enableImu = (Except.ok nodes, st) ∧
      sensors.length ≤ nodes.length ∧
      (nodes.map DaiNode.name).Nodup := by
  obtain ⟨st, hst, _⟩ :=
    createPipeline_camArray ptab ntab sensors pipelineType nnType enableImu t m hp hm hv
  refine ⟨_, st, hst, ?_, ?_⟩
  · rw [List.length_append, camArrayNodes_length]
    omega
  · rw [List.map_append, camArrayNodes_names]
    have hnd : ((List.range sensors.length).map camArrayName).Nodup :=
      List.Nodup.map camArrayName_injective (List.nodup_range _)
    cases enableImu
    · simpa using hnd
    · simp only [if_true, List.map_cons, List.map_nil, DaiNode.name]
      rw [List.nodup_append]
      refine ⟨hnd, List.nodup_singleton _, ?_⟩
      intro a ha hb
      rw [List.mem_singleton] at hb
      obtain ⟨i, _, rfl⟩ := List.mem_map.mp ha
      exact camArrayName_ne_imu i hb

/-- Witness of C9: 60 sensors. -/
theorem camArray_names_nodup_witness :
    ∃ nodes st,
      createPipeline samplePipelineTypeMap sampleNNTypeMap (sampleSensors 60) "camarray" "rgb"
        true = (Except.ok nodes, st) ∧
      (sampleSensors 60).length ≤ nodes.length ∧
      (nodes.map DaiNode.name).Nodup :=
  camArray_names_nodup samplePipelineTypeMap sampleNNTypeMap (sampleSensors 60)
    "camarray" "rgb" true PipelineType.CamArray NNType.RGB (by rfl) (by rfl) (by decide)
    (by decide)

/-- C10, counterexample: with 27 sensors the nodes at positions 25 and 26 are named
"z" and "aa", and "z" is not smaller than "aa" in lexicographic order. -/
theorem camArray_lexicographic_counterexample :
    ∃ nodes st a b,
      createPipeline samplePipelineTypeMap sampleNNTypeMap (sampleSensors 27) "camarray" "none"
        false = (Except.ok nodes, st) ∧
      nodes[25]? = some a ∧ nodes[26]? = some b ∧ a.name = "z" ∧ b.name = "aa" ∧
      ¬ (a.name < b.name) :=
  ⟨_, _, _, _, rfl, rfl, rfl, rfl, rfl, fun h => absurd (String.lt_iff_toList_lt.mp h) (by decide)⟩

/-- C10, amended: for every inventory of `k` sensors and all positions `i < j < k`,
the name of the `i`-th node built for the validated topology `CamArray` is smaller
than the name of the `j`-th in lexicographic order exactly when
`i mod 26 ≤ j mod 26`; in particular the names are strictly increasing within each
run of positions `26 q, ..., 26 q + 25`. -/
theorem camArray_names_lt_iff (ptab : List (String × PipelineType))
    (ntab : List (String × NNType)) (sensors : SensorInventory) (pipelineType nnType : String)
    (enableImu : Bool) (t : PipelineType) (m : NNType)
    (hp : getValFromMap (getUpperCaseStr pipelineType) ptab = Except.ok t)
    (hm : getValFromMap (getUpperCaseStr nnType) ntab = Except.ok m)
    (hv : (validatePipeline PipelineState.empty t (sizeToInt sensors.length)).1 =
      PipelineType.CamArray)
    (i j : Nat) (hij : i < j) (hjk : j < sensors.length) :
    ∃ nodes st a b,
      createPipeline ptab ntab sensors pipelineType nnType enableImu = (Except.ok nodes, st) ∧
      nodes[i]? = some a ∧ nodes[j]? = some b ∧
      (a.name < b.name ↔ i % 26 ≤ j % 26) := by
  obtain ⟨st, hst, _⟩ :=
    createPipeline_camArray ptab ntab sensors pipelineType nnType enableImu t m hp hm hv
  have hik : i < sensors.length := by omega
  refine ⟨_, st, DaiNode.SensorWrapper (camArrayName i) (sensors[i]).1,
    DaiNode.SensorWrapper (camArrayName j) (sensors[j]).1, hst, ?_, ?_, ?_⟩
  · rw [List.getElem?_append_left (by rw [camArrayNodes_length]; exact hik),
      camArrayNodes_getElem?, List.getElem?_eq_getElem hik]
    simp
  · rw [List.getElem?_append_left (by rw [camArrayNodes_length]; exact hjk),
      camArrayNodes_getElem?, List.getElem?_eq_getElem hjk]
    simp
  · exact camArrayName_lt_iff i j hij

/-- Witness of C10 (amended): 30 sensors, positions 3 and 28 (names "d" and "ccc"). -/
theorem camArray_names_lt_iff_witness :
    ∃ nodes st a b,
      createPipeline samplePipelineTypeMap sampleNNTypeMap (sampleSensors 30) "camarray" "none"
        false = (Except.ok nodes, st) ∧
      nodes[3]? = some a ∧ nodes[28]? = some b ∧
      (a.name < b.name ↔ 3 % 26 ≤ 28 % 26) :=
  camArray_names_lt_iff samplePipelineTypeMap sampleNNTypeMap (sampleSensors 30)
    "camarray" "none" false PipelineType.CamArray NNType.None (by rfl) (by rfl) (by decide)
    3 28 (by decide) (by decide)

/-! ### Notifications of `validatePipeline` -/

/-- C11, counterexample: with one sensor and `RGBD` requested, `validatePipeline`
corrects the topology to `RGB` and logs exactly one message, of level `ERROR`; no
message of level `WARN` is logged. -/
theorem validatePipeline_notification_counterexample :
    (validatePipeline PipelineState.empty PipelineType.RGBD 1).1 ≠ PipelineType.RGBD ∧
      (validatePipeline PipelineState.empty PipelineType.RGBD 1).2.log =
        [⟨LogLevel.ERROR,
          "Wrong pipeline chosen for camera as it has only one sensor. Switching to RGB."⟩] ∧
      List.countP (fun msg => decide (msg.level = LogLevel.WARN))
        (validatePipeline PipelineState.empty PipelineType.RGBD 1).2.log ≠ 1 := by
  decide

/-- C11, amended: `validatePipeline` always returns; when the returned topology
differs from the requested one it logs exactly one message, of level `ERROR`, and
when it returns the requested topology it logs nothing; it constructs no node and
makes no link. -/
theorem validatePipeline_notification (st : PipelineState) (t : PipelineType) (n : Int) :
    (validatePipeline st t n).2.created = st.created ∧
      (validatePipeline st t n).2.links = st.links ∧
      ((validatePipeline st t n).1 ≠ t →
        ∃ text, (validatePipeline st t n).2.log = st.log ++ [⟨LogLevel.ERROR, text⟩]) ∧
      ((validatePipeline st t n).1 = t → (validatePipeline st t n).2 = st) := by
  refine ⟨(validatePipeline_created st t n).1, (validatePipeline_created st t n).2, ?_, ?_⟩
  · unfold validatePipeline
    split_ifs <;> intro h <;> first
      | exact absurd rfl h
      | exact ⟨_, rfl⟩
  · unfold validatePipeline
    split_ifs <;> intro h <;> first
      | rfl
      | (exfalso; simp_all)

/-- C16: with three sensors `validatePipeline` applies no correction: it returns the
requested topology, whatever it is, and logs nothing. -/
theorem validatePipeline_three (st : PipelineState) (t : PipelineType) :
    validatePipeline st t 3 = (t, st) := by
  cases t <;> simp [validatePipeline]

/-! ### The switch over the topology -/

/-- Outcome of the switch for a topology and a mode: it never ends in the `default`
case; the vector it fills and the links it adds depend on the topology, the mode and
the inventory only, and no link starts or ends at an inertial node. -/
theorem createPipelineSwitch_spec (p : PipelineType) (n : NNType) (sensors : SensorInventory) :
    ∃ nodes ls, (∀ nd ∈ nodes, nd.isImu = false) ∧
      (∀ l ∈ ls, l.source.isImu = false ∧ l.target.isImu = false) ∧
      ∀ (st : PipelineState) (s : String),
        (createPipelineSwitch st p n sensors s).1 = Except.ok nodes ∧
        (createPipelineSwitch st p n sensors s).2.links = st.links ++ ls := by
  by_cases hc : p = PipelineType.CamArray
  · subst hc
    refine ⟨camArrayNodes 0 sensors, [], ?_, by simp, fun st s => ?_⟩
    · intro nd hnd
      unfold camArrayNodes at hnd
      obtain ⟨q, _, rfl⟩ := List.mem_map.mp hnd
      rfl
    · have h := camArrayLoop_daiNodes st [] sensors
      simp [createPipelineSwitch, h.1, h.2]
  · cases p <;> first
      | exact absurd rfl hc
      | (cases n <;> first
          | (refine ⟨_, [], ?_, ?_, fun st s => ⟨rfl, ?_⟩⟩
             · simp [DaiNode.isImu]
             · simp
             · simp [createPipelineSwitch, PipelineState.construct, PipelineState.addLog])
          | (refine ⟨_, _, ?_, ?_, fun st s => ⟨rfl, rfl⟩⟩
             · simp [DaiNode.isImu]
             · simp [DaiNode.isImu])
          | (refine ⟨_, [⟨DaiNode.SensorWrapper "rgb" CameraBoardSocket.RGB, LinkType.preview,
                DaiNode.SpatialNNWrapper "nn", NNInput.input⟩,
               ⟨DaiNode.Stereo "stereo" none, LinkType.unspecified,
                DaiNode.SpatialNNWrapper "nn", NNInput.inputDepth⟩], ?_, ?_,
               fun st s => ⟨rfl, ?_⟩⟩
             · simp [DaiNode.isImu]
             · simp [DaiNode.isImu]
             · simp [createPipelineSwitch, createSpatialNN, PipelineState.construct,
                 PipelineState.addLink]))

theorem getValFromMap_cases {α : Type} (k : String) (tab : List (String × α)) :
    (∃ v, getValFromMap k tab = Except.ok v) ∨
      getValFromMap k tab = Except.error (PipelineError.unknownConfigurationValue k) := by
  unfold getValFromMap
  cases tab.lookup k with
  | none => exact Or.inr rfl
  | some v => exact Or.inl ⟨v, rfl⟩

/-- Failure of `createPipeline` when a lookup fails: the error, whatever the flag. -/
theorem createPipeline_of_lookup_error (ptab : List (String × PipelineType))
    (ntab : List (String × NNType)) (sensors : SensorInventory) (pipelineType nnType : String)
    (enableImu : Bool)
    (h : getValFromMap (getUpperCaseStr pipelineType) ptab =
        Except.error (PipelineError.unknownConfigurationValue (getUpperCaseStr pipelineType)) ∨
      getValFromMap (getUpperCaseStr nnType) ntab =
        Except.error (PipelineError.unknownConfigurationValue (getUpperCaseStr nnType))) :
    ∃ e, (createPipeline ptab ntab sensors pipelineType nnType enableImu).1 = Except.error e := by
  unfold createPipeline
  dsimp only
  rcases getValFromMap_cases (getUpperCaseStr pipelineType) ptab with ⟨t, ht⟩ | ht
  · rcases h with h | h
    · rw [ht] at h; cases h
    · rw [ht, h]
      exact ⟨_, rfl⟩
  · rw [ht]
    exact ⟨_, rfl⟩

/-- Success of `createPipeline` when both lookups succeed: the vector filled by the
switch, then the inertial node when the flag is on; the links are those of the
switch. -/
theorem createPipeline_of_switch (ptab : List (String × PipelineType))
    (ntab : List (String × NNType)) (sensors : SensorInventory) (pipelineType nnType : String)
    (enableImu : Bool) (t : PipelineType) (m : NNType)
    (hp : getValFromMap (getUpperCaseStr pipelineType) ptab = Except.ok t)
    (hm : getValFromMap (getUpperCaseStr nnType) ntab = Except.ok m)
    (nodes : List DaiNode) (ls : List Link)
    (hsw : ∀ (st : PipelineState) (s : String),
      (createPipelineSwitch st
          (validatePipeline PipelineState.empty t (sizeToInt sensors.length)).1 m sensors s).1 =
        Except.ok nodes ∧
      (createPipelineSwitch st
          (validatePipeline PipelineState.empty t (sizeToInt sensors.length)).1 m sensors s).2.links =
        st.links ++ ls) :
    ∃ st,
      createPipeline ptab ntab sensors pipelineType nnType enableImu =
        (Except.ok (if enableImu then nodes ++ [DaiNode.Imu "imu"] else nodes), st) ∧
      st.links = ls := by
  rw [createPipeline_of_lookup ptab ntab sensors pipelineType nnType enableImu t m hp hm]
  have hl := (validatePipeline_created (entryState pipelineType) t (sizeToInt sensors.length)).2
  rw [validatePipeline_fst (entryState pipelineType) PipelineState.empty]
  generalize (validatePipeline (entryState pipelineType) t (sizeToInt sensors.length)).2 = v at hl ⊢
  have hl0 : v.links = [] := by rw [hl]; rfl
  have h := hsw v pipelineType
  generalize createPipelineSwitch v
    (validatePipeline PipelineState.empty t (sizeToInt sensors.length)).1 m sensors pipelineType =
    sw at h
  obtain ⟨r, st2⟩ := sw
  simp only at h
  obtain ⟨h1, h2⟩ := h
  subst h1
  refine ⟨_, rfl, ?_⟩
  cases enableImu <;> simp [PipelineState.addLog, PipelineState.construct, h2, hl0]

/-! ### Reachability of the `default` case -/

/-- C19: the switch over the validated topology never ends in the `default` case,
for each of the seven topologies, every mode, every inventory and every state; so a
build whose two configuration strings resolve returns a node collection, with either
inertial flag. -/
theorem createPipeline_default_unreachable (ptab : List (String × PipelineType))
    (ntab : List (String × NNType)) (sensors : SensorInventory) (pipelineType nnType : String)
    (enableImu : Bool) (t : PipelineType) (m : NNType)
    (hp : getValFromMap (getUpperCaseStr pipelineType) ptab = Except.ok t)
    (hm : getValFromMap (getUpperCaseStr nnType) ntab = Except.ok m) :
    (∀ (st : PipelineState) (p : PipelineType) (n : NNType) (e : PipelineError),
      (createPipelineSwitch st p n sensors pipelineType).1 ≠ Except.error e) ∧
    ∃ nodes st,
      createPipeline ptab ntab sensors pipelineType nnType enableImu = (Except.ok nodes, st) := by
  constructor
  · intro st p n e he
    obtain ⟨nodes, ls, _, _, h⟩ := createPipelineSwitch_spec p n sensors
    rw [(h st pipelineType).1] at he
    cases he
  · obtain ⟨nodes, ls, _, _, h⟩ := createPipelineSwitch_spec
      (validatePipeline PipelineState.empty t (sizeToInt sensors.length)).1 m sensors
    obtain ⟨st, hst, _⟩ := createPipeline_of_switch ptab ntab sensors pipelineType nnType
      enableImu t m hp hm nodes ls h
    exact ⟨_, st, hst⟩

/-- Witness of C19: five sensors, topology "rae", mode "spatial", inertial flag on. -/
theorem createPipeline_default_unreachable_witness :
    (∀ (st : PipelineState) (p : PipelineType) (n : NNType) (e : PipelineError),
      (createPipelineSwitch st p n (sampleSensors 5) "rae").1 ≠ Except.error e) ∧
    ∃ nodes st,
      createPipeline samplePipelineTypeMap sampleNNTypeMap (sampleSensors 5) "rae" "spatial"
        true = (Except.ok nodes, st) :=
  createPipeline_default_unreachable samplePipelineTypeMap sampleNNTypeMap (sampleSensors 5)
    "rae" "spatial" true PipelineType.Rae NNType.Spatial (by rfl) (by rfl)

/-! ### The inertial node -/

/-- C12: for every build whose two configuration strings resolve, the build succeeds
with either inertial flag; the collection returned with the flag on is the collection
returned with the flag off followed by the one inertial node "imu"; the links are the
same in both builds, and no link starts or ends at an inertial node. -/
theorem createPipeline_imu_appended (ptab : List (String × PipelineType))
    (ntab : List (String × NNType)) (sensors : SensorInventory) (pipelineType nnType : String)
    (t : PipelineType) (m : NNType)
    (hp : getValFromMap (getUpperCaseStr pipelineType) ptab = Except.ok t)
    (hm : getValFromMap (getUpperCaseStr nnType) ntab = Except.ok m) :
    ∃ nodes stOff stOn,
      createPipeline ptab ntab sensors pipelineType nnType false = (Except.ok nodes, stOff) ∧
      createPipeline ptab ntab sensors pipelineType nnType true =
        (Except.ok (nodes ++ [DaiNode.Imu "imu"]), stOn) ∧
      (∀ n ∈ nodes, n.isImu = false) ∧
      stOn.links = stOff.links ∧
      ∀ l ∈ stOn.links, l.source.isImu = false ∧ l.target.isImu = false := by
  obtain ⟨nodes, ls, hnodes, hls, h⟩ := createPipelineSwitch_spec
    (validatePipeline PipelineState.empty t (sizeToInt sensors.length)).1 m sensors
  obtain ⟨stOff, hoff, hloff⟩ := createPipeline_of_switch ptab ntab sensors pipelineType nnType
    false t m hp hm nodes ls h
  obtain ⟨stOn, hon, hlon⟩ := createPipeline_of_switch ptab ntab sensors pipelineType nnType
    true t m hp hm nodes ls h
  exact ⟨nodes, stOff, stOn, by simpa using hoff, by simpa using hon, hnodes,
    by rw [hlon, hloff], by rw [hlon]; exact hls⟩

/-- Witness of C12: three sensors, topology "rgbd", mode "spatial". -/
theorem createPipeline_imu_appended_witness :
    ∃ nodes stOff stOn,
      createPipeline samplePipelineTypeMap sampleNNTypeMap (sampleSensors 3) "rgbd" "spatial"
        false = (Except.ok nodes, stOff) ∧
      createPipeline samplePipelineTypeMap sampleNNTypeMap (sampleSensors 3) "rgbd" "spatial"
        true = (Except.ok (nodes ++ [DaiNode.Imu "imu"]), stOn) ∧
      (∀ n ∈ nodes, n.isImu = false) ∧
      stOn.links = stOff.links ∧
      ∀ l ∈ stOn.links, l.source.isImu = false ∧ l.target.isImu = false :=
  createPipeline_imu_appended samplePipelineTypeMap sampleNNTypeMap (sampleSensors 3)
    "rgbd" "spatial" PipelineType.RGBD NNType.Spatial (by rfl) (by rfl)

/-! ### Case of the configuration strings -/

/-- C17: two topology strings with the same upper-casing and two mode strings with
the same upper-casing give, for the same inventory and inertial flag, either two
failing builds or two builds returning the same node collection and the same links. -/
theorem createPipeline_case_insensitive (ptab : List (String × PipelineType))
    (ntab : List (String × NNType)) (sensors : SensorInventory) (s1 s2 m1 m2 : String)
    (enableImu : Bool)
    (hs : getUpperCaseStr s1 = getUpperCaseStr s2)
    (hmode : getUpperCaseStr m1 = getUpperCaseStr m2) :
    (∃ e1 e2,
      (createPipeline ptab ntab sensors s1 m1 enableImu).1 = Except.error e1 ∧
      (createPipeline ptab ntab sensors s2 m2 enableImu).1 = Except.error e2) ∨
    (∃ nodes,
      (createPipeline ptab ntab sensors s1 m1 enableImu).1 = Except.ok nodes ∧
      (createPipeline ptab ntab sensors s2 m2 enableImu).1 = Except.ok nodes ∧
      (createPipeline ptab ntab sensors s1 m1 enableImu).2.links =
        (createPipeline ptab ntab sensors s2 m2 enableImu).2.links) := by
  rcases getValFromMap_cases (getUpperCaseStr s1) ptab with ⟨t, ht⟩ | ht
  · rcases getValFromMap_cases (getUpperCaseStr m1) ntab with ⟨m, hm⟩ | hm
    · right
      obtain ⟨nodes, ls, _, _, h⟩ := createPipelineSwitch_spec
        (validatePipeline PipelineState.empty t (sizeToInt sensors.length)).1 m sensors
      obtain ⟨st1, h1, hl1⟩ := createPipeline_of_switch ptab ntab sensors s1 m1
        enableImu t m ht hm nodes ls h
      obtain ⟨st2, h2, hl2⟩ := createPipeline_of_switch ptab ntab sensors s2 m2
        enableImu t m (hs ▸ ht) (hmode ▸ hm) nodes ls h
      refine ⟨if enableImu then nodes ++ [DaiNode.Imu "imu"] else nodes, ?_, ?_, ?_⟩
      · rw [h1]
      · rw [h2]
      · rw [h1, h2]
        exact hl1.trans hl2.symm
    · left
      obtain ⟨e1, he1⟩ := createPipeline_of_lookup_error ptab ntab sensors s1 m1 enableImu
        (Or.inr hm)
      obtain ⟨e2, he2⟩ := createPipeline_of_lookup_error ptab ntab sensors s2 m2 enableImu
        (Or.inr (hmode ▸ hm))
      exact ⟨e1, e2, he1, he2⟩
  · left
    obtain ⟨e1, he1⟩ := createPipeline_of_lookup_error ptab ntab sensors s1 m1 enableImu
      (Or.inl ht)
    obtain ⟨e2, he2⟩ := createPipeline_of_lookup_error ptab ntab sensors s2 m2 enableImu
      (Or.inl (hs ▸ ht))
    exact ⟨e1, e2, he1, he2⟩

/-- Witness of C17: "rgbd" against "RgBd" and "spatial" against "SPATIAL". -/
theorem createPipeline_case_insensitive_witness :
    (∃ e1 e2,
      (createPipeline samplePipelineTypeMap sampleNNTypeMap (sampleSensors 3) "rgbd" "spatial"
        true).1 = Except.error e1 ∧
      (createPipeline samplePipelineTypeMap sampleNNTypeMap (sampleSensors 3) "RgBd" "SPATIAL"
        true).1 = Except.error e2) ∨
    (∃ nodes,
      (createPipeline samplePipelineTypeMap sampleNNTypeMap (sampleSensors 3) "rgbd" "spatial"
        true).1 = Except.ok nodes ∧
      (createPipeline samplePipelineTypeMap sampleNNTypeMap (sampleSensors 3) "RgBd" "SPATIAL"
        true).1 = Except.ok nodes ∧
      (createPipeline samplePipelineTypeMap sampleNNTypeMap (sampleSensors 3) "rgbd" "spatial"
        true).2.links =
        (createPipeline samplePipelineTypeMap sampleNNTypeMap (sampleSensors 3) "RgBd" "SPATIAL"
        true).2.links) :=
  createPipeline_case_insensitive samplePipelineTypeMap sampleNNTypeMap (sampleSensors 3)
    "rgbd" "RgBd" "spatial" "SPATIAL" true (by decide) (by decide)

/-! ### The fixed rig -/

/-- C13: when the validated topology is `Rae` and the inertial flag is off, the
returned collection is exactly the three nodes color capture "rgb", stereo-depth
"stereo_front" and stereo-depth "stereo_back", no link is made, and this holds for
every mode (`None`, `RGB`, `Spatial`) alike. -/
theorem createPipeline_rae (ptab : List (String × PipelineType))
    (ntab : List (String × NNType)) (sensors : SensorInventory) (pipelineType nnType : String)
    (t : PipelineType) (m : NNType)
    (hp : getValFromMap (getUpperCaseStr pipelineType) ptab = Except.ok t)
    (hm : getValFromMap (getUpperCaseStr nnType) ntab = Except.ok m)
    (hv : (validatePipeline PipelineState.empty t (sizeToInt sensors.length)).1 =
      PipelineType.Rae) :
    ∃ st,
      createPipeline ptab ntab sensors pipelineType nnType false =
        (Except.ok
          [DaiNode.SensorWrapper "rgb" CameraBoardSocket.RGB,
           DaiNode.Stereo "stereo_front"
             (some ⟨"left_front", "right_front", CameraBoardSocket.CAM_B, CameraBoardSocket.CAM_C⟩),
           DaiNode.Stereo "stereo_back"
             (some ⟨"left_back", "right_back", CameraBoardSocket.CAM_D, CameraBoardSocket.CAM_E⟩)],
          st) ∧
      st.links = [] := by
  have hsw : ∀ (st : PipelineState) (s : String),
      (createPipelineSwitch st
          (validatePipeline PipelineState.empty t (sizeToInt sensors.length)).1 m sensors s).1 =
        Except.ok
          [DaiNode.SensorWrapper "rgb" CameraBoardSocket.RGB,
           DaiNode.Stereo "stereo_front"
             (some ⟨"left_front", "right_front", CameraBoardSocket.CAM_B, CameraBoardSocket.CAM_C⟩),
           DaiNode.Stereo "stereo_back"
             (some ⟨"left_back", "right_back", CameraBoardSocket.CAM_D, CameraBoardSocket.CAM_E⟩)] ∧
      (createPipelineSwitch st
          (validatePipeline PipelineState.empty t (sizeToInt sensors.length)).1 m sensors s).2.links =
        st.links ++ [] := by
    intro st s
    rw [hv]
    cases m <;> exact ⟨rfl, by simp [createPipelineSwitch, PipelineState.construct]⟩
  obtain ⟨st, hst, hl⟩ := createPipeline_of_switch ptab ntab sensors pipelineType nnType
    false t m hp hm _ _ hsw
  exact ⟨st, by simpa using hst, hl⟩

/-- Witness of C13: five sensors, topology "rae", mode "spatial". -/
theorem createPipeline_rae_witness :
    ∃ st,
      createPipeline samplePipelineTypeMap sampleNNTypeMap (sampleSensors 5) "rae" "spatial"
          false =
        (Except.ok
          [DaiNode.SensorWrapper "rgb" CameraBoardSocket.RGB,
           DaiNode.Stereo "stereo_front"
             (some ⟨"left_front", "right_front", CameraBoardSocket.CAM_B, CameraBoardSocket.CAM_C⟩),
           DaiNode.Stereo "stereo_back"
             (some ⟨"left_back", "right_back", CameraBoardSocket.CAM_D, CameraBoardSocket.CAM_E⟩)],
          st) ∧
      st.links = [] :=
  createPipeline_rae samplePipelineTypeMap sampleNNTypeMap (sampleSensors 5)
    "rae" "spatial" PipelineType.Rae NNType.Spatial (by rfl) (by rfl) (by decide)

/-! ### Inference on the color stream -/

/-- C14: when the validated topology is `RGB`, `RGBD` or `RGBStereo` and the mode is
`RGB`, the returned collection is the plain inference node "nn" followed by the
collection a build with mode `None` returns; that rest holds no inference node and
holds the color node "rgb"; exactly one link is made, from the preview output of
"rgb" to the single input of "nn", and the build with mode `None` makes none. -/
theorem createPipeline_color_inference (ptab : List (String × PipelineType))
    (ntab : List (String × NNType)) (sensors : SensorInventory)
    (pipelineType nnType nnNone : String) (enableImu : Bool) (t : PipelineType)
    (hp : getValFromMap (getUpperCaseStr pipelineType) ptab = Except.ok t)
    (hm : getValFromMap (getUpperCaseStr nnType) ntab = Except.ok NNType.RGB)
    (hm0 : getValFromMap (getUpperCaseStr nnNone) ntab = Except.ok NNType.None)
    (hv : (validatePipeline PipelineState.empty t (sizeToInt sensors.length)).1 = PipelineType.RGB ∨
      (validatePipeline PipelineState.empty t (sizeToInt sensors.length)).1 = PipelineType.RGBD ∨
      (validatePipeline PipelineState.empty t (sizeToInt sensors.length)).1 =
        PipelineType.RGBStereo) :
    ∃ rest st st0,
      createPipeline ptab ntab sensors pipelineType nnType enableImu =
        (Except.ok (DaiNode.NNWrapper "nn" :: rest), st) ∧
      createPipeline ptab ntab sensors pipelineType nnNone enableImu = (Except.ok rest, st0) ∧
      (∀ nd ∈ rest, nd.isNN = false ∧ nd.isSpatialNN = false) ∧
      DaiNode.SensorWrapper "rgb" CameraBoardSocket.RGB ∈ rest ∧
      st.links =
        [⟨DaiNode.SensorWrapper "rgb" CameraBoardSocket.RGB, LinkType.preview,
          DaiNode.NNWrapper "nn", NNInput.single⟩] ∧
      st0.links = [] := by
  have key : ∀ caps : List DaiNode,
      (∀ (st : PipelineState) (s : String),
        (createPipelineSwitch st
            (validatePipeline PipelineState.empty t (sizeToInt sensors.length)).1
            NNType.RGB sensors s).1 = Except.ok (DaiNode.NNWrapper "nn" :: caps) ∧
        (createPipelineSwitch st
            (validatePipeline PipelineState.empty t (sizeToInt sensors.length)).1
            NNType.RGB sensors s).2.links =
          st.links ++ [⟨DaiNode.SensorWrapper "rgb" CameraBoardSocket.RGB, LinkType.preview,
            DaiNode.NNWrapper "nn", NNInput.single⟩]) →
      (∀ (st : PipelineState) (s : String),
        (createPipelineSwitch st
            (validatePipeline PipelineState.empty t (sizeToInt sensors.length)).1
            NNType.None sensors s).1 = Except.ok caps ∧
        (createPipelineSwitch st
            (validatePipeline PipelineState.empty t (sizeToInt sensors.length)).1
            NNType.None sensors s).2.links = st.links ++ []) →
      (∀ nd ∈ caps, nd.isNN = false ∧ nd.isSpatialNN = false) →
      DaiNode.SensorWrapper "rgb" CameraBoardSocket.RGB ∈ caps →
      ∃ rest st st0,
        createPipeline ptab ntab sensors pipelineType nnType enableImu =
          (Except.ok (DaiNode.NNWrapper "nn" :: rest), st) ∧
        createPipeline ptab ntab sensors pipelineType nnNone enableImu = (Except.ok rest, st0) ∧
        (∀ nd ∈ rest, nd.isNN = false ∧ nd.isSpatialNN = false) ∧
        DaiNode.SensorWrapper "rgb" CameraBoardSocket.RGB ∈ rest ∧
        st.links =
          [⟨DaiNode.SensorWrapper "rgb" CameraBoardSocket.RGB, LinkType.preview,
            DaiNode.NNWrapper "nn", NNInput.single⟩] ∧
        st0.links = [] := by
    intro caps h1 h0 hcaps hrgb
    obtain ⟨st, hst, hl⟩ := createPipeline_of_switch ptab ntab sensors pipelineType nnType
      enableImu t NNType.RGB hp hm _ _ h1
    obtain ⟨st0, hst0, hl0⟩ := createPipeline_of_switch ptab ntab sensors pipelineType nnNone
      enableImu t NNType.None hp hm0 _ _ h0
    refine ⟨if enableImu then caps ++ [DaiNode.Imu "imu"] else caps, st, st0, ?_, hst0, ?_, ?_,
      hl, hl0⟩
    · rw [hst]
      cases enableImu <;> rfl
    · intro nd hnd
      cases enableImu
      · exact hcaps nd (by simpa using hnd)
      · simp only [if_true, List.mem_append, List.mem_singleton] at hnd
        rcases hnd with hnd | rfl
        · exact hcaps nd hnd
        · exact ⟨rfl, rfl⟩
    · cases enableImu
      · simpa using hrgb
      · simp only [if_true, List.mem_append]
        exact Or.inl hrgb
  rcases hv with hv | hv | hv
  · refine key [DaiNode.SensorWrapper "rgb" CameraBoardSocket.RGB] ?_ ?_ ?_ ?_
    · intro st s; rw [hv]; exact ⟨rfl, rfl⟩
    · intro st s; rw [hv]
      exact ⟨rfl, by simp [createPipelineSwitch, PipelineState.construct]⟩
    · simp [DaiNode.isNN, DaiNode.isSpatialNN]
    · simp
  · refine key [DaiNode.SensorWrapper "rgb" CameraBoardSocket.RGB,
      DaiNode.Stereo "stereo" none] ?_ ?_ ?_ ?_
    · intro st s; rw [hv]; exact ⟨rfl, rfl⟩
    · intro st s; rw [hv]
      exact ⟨rfl, by simp [createPipelineSwitch, PipelineState.construct]⟩
    · simp [DaiNode.isNN, DaiNode.isSpatialNN]
    · simp
  · refine key [DaiNode.SensorWrapper "rgb" CameraBoardSocket.RGB,
      DaiNode.SensorWrapper "left" CameraBoardSocket.LEFT,
      DaiNode.SensorWrapper "right" CameraBoardSocket.RIGHT] ?_ ?_ ?_ ?_
    · intro st s; rw [hv]; exact ⟨rfl, rfl⟩
    · intro st s; rw [hv]
      exact ⟨rfl, by simp [createPipelineSwitch, PipelineState.construct]⟩
    · simp [DaiNode.isNN, DaiNode.isSpatialNN]
    · simp

/-- Witness of C14: three sensors, topology "rgbstereo", modes "rgb" and "none",
inertial flag on. -/
theorem createPipeline_color_inference_witness :
    ∃ rest st st0,
      createPipeline samplePipelineTypeMap sampleNNTypeMap (sampleSensors 3) "rgbstereo" "rgb"
        true = (Except.ok (DaiNode.NNWrapper "nn" :: rest), st) ∧
      createPipeline samplePipelineTypeMap sampleNNTypeMap (sampleSensors 3) "rgbstereo" "none"
        true = (Except.ok rest, st0) ∧
      (∀ nd ∈ rest, nd.isNN = false ∧ nd.isSpatialNN = false) ∧
      DaiNode.SensorWrapper "rgb" CameraBoardSocket.RGB ∈ rest ∧
      st.links =
        [⟨DaiNode.SensorWrapper "rgb" CameraBoardSocket.RGB, LinkType.preview,
          DaiNode.NNWrapper "nn", NNInput.single⟩] ∧
      st0.links = [] :=
  createPipeline_color_inference samplePipelineTypeMap sampleNNTypeMap (sampleSensors 3)
    "rgbstereo" "rgb" "none" true PipelineType.RGBStereo (by rfl) (by rfl) (by rfl)
    (Or.inr (Or.inr (by decide)))

/-! ### Nodes of the `CamArray` topology -/

theorem camArrayNodes_isSensor (i0 : Nat) (sensors : SensorInventory) :
    ∀ nd ∈ camArrayNodes i0 sensors, nd.isSensor = true := by
  intro nd hnd
  unfold camArrayNodes at hnd
  obtain ⟨q, _, rfl⟩ := List.mem_map.mp hnd
  rfl

theorem camArrayNodes_imu_names_nodup (sensors : SensorInventory) (enableImu : Bool) :
    ((camArrayNodes 0 sensors ++ if enableImu then [DaiNode.Imu "imu"] else []).map
      DaiNode.name).Nodup := by
  rw [List.map_append, camArrayNodes_names]
  have hnd : ((List.range sensors.length).map camArrayName).Nodup :=
    List.Nodup.map camArrayName_injective (List.nodup_range _)
  cases enableImu
  · simpa using hnd
  · simp only [if_true, List.map_cons, List.map_nil, DaiNode.name]
    rw [List.nodup_append]
    refine ⟨hnd, List.nodup_singleton _, ?_⟩
    intro a ha hb
    rw [List.mem_singleton] at hb
    obtain ⟨i, _, rfl⟩ := List.mem_map.mp ha
    exact camArrayName_ne_imu i hb

/-- C15: when the validated topology is `CamArray` and the inertial flag is off, the
returned collection has as many nodes as the inventory has entries, every node is a
capture node, and the node at position `i` is bound to the socket of the entry at
position `i`, whatever the mode. -/
theorem createPipeline_camArray_sockets (ptab : List (String × PipelineType))
    (ntab : List (String × NNType)) (sensors : SensorInventory) (pipelineType nnType : String)
    (t : PipelineType) (m : NNType)
    (hp : getValFromMap (getUpperCaseStr pipelineType) ptab = Except.ok t)
    (hm : getValFromMap (getUpperCaseStr nnType) ntab = Except.ok m)
    (hv : (validatePipeline PipelineState.empty t (sizeToInt sensors.length)).1 =
      PipelineType.CamArray) :
    ∃ nodes st,
      createPipeline ptab ntab sensors pipelineType nnType false = (Except.ok nodes, st) ∧
      nodes.length = sensors.length ∧
      (∀ nd ∈ nodes, nd.isSensor = true) ∧
      ∀ (i : Nat) (hi : i < sensors.length),
        ∃ name, nodes[i]? = some (DaiNode.SensorWrapper name (sensors[i]).1) := by
  obtain ⟨st, hst, _⟩ :=
    createPipeline_camArray ptab ntab sensors pipelineType nnType false t m hp hm hv
  simp only [Bool.false_eq_true, if_false, List.append_nil] at hst
  refine ⟨_, st, hst, camArrayNodes_length 0 sensors, camArrayNodes_isSensor 0 sensors, ?_⟩
  intro i hi
  refine ⟨camArrayName (0 + i), ?_⟩
  rw [camArrayNodes_getElem?, List.getElem?_eq_getElem hi]
  rfl

/-- Witness of C15: four sensors, topology "camarray", mode "spatial". -/
theorem createPipeline_camArray_sockets_witness :
    ∃ nodes st,
      createPipeline samplePipelineTypeMap sampleNNTypeMap (sampleSensors 4) "camarray" "spatial"
        false = (Except.ok nodes, st) ∧
      nodes.length = (sampleSensors 4).length ∧
      (∀ nd ∈ nodes, nd.isSensor = true) ∧
      ∀ (i : Nat) (hi : i < (sampleSensors 4).length),
        ∃ name, nodes[i]? = some (DaiNode.SensorWrapper name ((sampleSensors 4)[i]).1) :=
  createPipeline_camArray_sockets samplePipelineTypeMap sampleNNTypeMap (sampleSensors 4)
    "camarray" "spatial" PipelineType.CamArray NNType.Spatial (by rfl) (by rfl) (by decide)

/-- C18: for every inventory and every 0-based position `i` in it, the node built at
position `i` for the validated topology `CamArray` is named with the letter at index
`i mod 26` of the alphabet a..z, repeated `i div 26 + 1` times. -/
theorem camArray_name_repeating (ptab : List (String × PipelineType))
    (ntab : List (String × NNType)) (sensors : SensorInventory) (pipelineType nnType : String)
    (enableImu : Bool) (t : PipelineType) (m : NNType)
    (hp : getValFromMap (getUpperCaseStr pipelineType) ptab = Except.ok t)
    (hm : getValFromMap (getUpperCaseStr nnType) ntab = Except.ok m)
    (hv : (validatePipeline PipelineState.empty t (sizeToInt sensors.length)).1 =
      PipelineType.CamArray)
    (i : Nat) (hi : i < sensors.length) :
    ∃ nodes st node,
      createPipeline ptab ntab sensors pipelineType nnType enableImu = (Except.ok nodes, st) ∧
      nodes[i]? = some node ∧
      node.name = camArrayName i ∧
      node.name.data = List.replicate (i / 26 + 1) (alphabet.data.getD (i % 26) 'a') := by
  obtain ⟨st, hst, _⟩ :=
    createPipeline_camArray ptab ntab sensors pipelineType nnType enableImu t m hp hm hv
  refine ⟨_, st, DaiNode.SensorWrapper (camArrayName i) (sensors[i]).1, hst, ?_, rfl, ?_⟩
  · rw [List.getElem?_append_left (by rw [camArrayNodes_length]; exact hi),
      camArrayNodes_getElem?, List.getElem?_eq_getElem hi]
    simp
  · show List.replicate (i / 26 + 1) (alphabetAt i) = _
    congr 1
    unfold alphabetAt
    have hlt : i % 26 < alphabet.data.length := Nat.mod_lt i (by decide)
    rw [List.getD_eq_getElem _ _ hlt]
    rfl

/-- Witness of C18: 60 sensors, position 30 (name "ee"). -/
theorem camArray_name_repeating_witness :
    ∃ nodes st node,
      createPipeline samplePipelineTypeMap sampleNNTypeMap (sampleSensors 60) "camarray" "none"
        false = (Except.ok nodes, st) ∧
      nodes[30]? = some node ∧
      node.name = camArrayName 30 ∧
      node.name.data = List.replicate (30 / 26 + 1) (alphabet.data.getD (30 % 26) 'a') :=
  camArray_name_repeating samplePipelineTypeMap sampleNNTypeMap (sampleSensors 60)
    "camarray" "none" false PipelineType.CamArray NNType.None (by rfl) (by rfl) (by decide)
    30 (by decide)

/-! ### Uniqueness of the node names -/

/-- C20: for every successful call of `createPipeline`, whatever the topology, the
mode, the inventory and the inertial flag, the names of the nodes in the returned
collection are pairwise distinct. -/
theorem createPipeline_names_nodup (ptab : List (String × PipelineType))
    (ntab : List (String × NNType)) (sensors : SensorInventory) (pipelineType nnType : String)
    (enableImu : Bool) (nodes : List DaiNode) (st : PipelineState)
    (h : createPipeline ptab ntab sensors pipelineType nnType enableImu = (Except.ok nodes, st)) :
    (nodes.map DaiNode.name).Nodup := by
  rcases getValFromMap_cases (getUpperCaseStr pipelineType) ptab with ⟨t, hp⟩ | hp
  · rcases getValFromMap_cases (getUpperCaseStr nnType) ntab with ⟨m, hm⟩ | hm
    · by_cases hc : (validatePipeline PipelineState.empty t (sizeToInt sensors.length)).1 =
          PipelineType.CamArray
      · obtain ⟨st2, hst2, _⟩ :=
          createPipeline_camArray ptab ntab sensors pipelineType nnType enableImu t m hp hm hc
        rw [hst2] at h
        simp only [Prod.mk.injEq, Except.ok.injEq] at h
        rw [← h.1]
        exact camArrayNodes_imu_names_nodup sensors enableImu
      · rw [createPipeline_of_lookup ptab ntab sensors pipelineType nnType enableImu t m hp hm,
          validatePipeline_fst (entryState pipelineType) PipelineState.empty] at h
        generalize (validatePipeline PipelineState.empty t (sizeToInt sensors.length)).1 = p
          at h hc
        generalize (validatePipeline (entryState pipelineType) t (sizeToInt sensors.length)).2 = v
          at h
        cases p <;> first
          | exact absurd rfl hc
          | (cases m <;> cases enableImu <;>
              simp only [createPipelineSwitch, createNN, createSpatialNN, reduceCtorEq, if_true,
                if_false, Bool.false_eq_true, List.nil_append, List.cons_append,
                Prod.mk.injEq, Except.ok.injEq] at h <;>
              (rw [← h.1]; decide))
    · obtain ⟨e, he⟩ := createPipeline_of_lookup_error ptab ntab sensors pipelineType nnType
        enableImu (Or.inr hm)
      rw [h] at he
      cases he
  · obtain ⟨e, he⟩ := createPipeline_of_lookup_error ptab ntab sensors pipelineType nnType
      enableImu (Or.inl hp)
    rw [h] at he
    cases he

/-- Witness of C20: three sensors, topology "rgbd", mode "spatial", inertial flag on
(names "nn", "rgb", "stereo", "imu"). -/
theorem createPipeline_names_nodup_witness :
    createPipeline samplePipelineTypeMap sampleNNTypeMap (sampleSensors 3) "rgbd" "spatial" true =
        (Except.ok [DaiNode.SpatialNNWrapper "nn",
                    DaiNode.SensorWrapper "rgb" CameraBoardSocket.RGB,
                    DaiNode.Stereo "stereo" none, DaiNode.Imu "imu"],
          (createPipeline samplePipelineTypeMap sampleNNTypeMap (sampleSensors 3) "rgbd" "spatial"
            true).2) ∧
      ([DaiNode.SpatialNNWrapper "nn", DaiNode.SensorWrapper "rgb" CameraBoardSocket.RGB,
        DaiNode.Stereo "stereo" none, DaiNode.Imu "imu"].map DaiNode.name).Nodup :=
  ⟨by rfl, createPipeline_names_nodup samplePipelineTypeMap sampleNNTypeMap (sampleSensors 3)
    "rgbd" "spatial" true _ _ (by rfl)⟩

end pipeline_gen
end depthai_ros_driver
